import Mathlib

/-!
Verification of the glpi-sdk-python client: a shallow embedding of
`glpi/glpi.py` (the session/transport layer `GlpiService` and the resource
router `GLPI`) together with proofs about the specification's claims.

Python values are embedded as `PyVal` and Python exceptions as `PyExc`;
stateful methods become functions returning
`Except PyExc α × state × List HttpReq`, where the last component is the
trace of HTTP requests issued during the call.  The environment `Env`
answers every HTTP request.  HTTP headers are elided from requests: no
property proved here mentions them.
-/

/-- Embedded Python values (the subset the SDK manipulates). -/
inductive PyVal : Type where
  | none : PyVal
  | bool (b : Bool) : PyVal
  | int (n : Int) : PyVal
  | str (s : String) : PyVal
  | list (elems : List PyVal) : PyVal
  | set (elems : List PyVal) : PyVal
  | dict (entries : List (String × PyVal)) : PyVal
deriving Repr

/-- Embedded Python exceptions raised on the code paths we model.
`keyError` and `indexError` are the `LookupError` subclasses; `glpiExc`
models `GlpiException` and `glpiInvalidArgument` its subclass
`GlpiInvalidArgument` (the spec's `SessionError` / `ConfigError`). -/
inductive PyExc : Type where
  | glpiExc (msg : String)
  | glpiInvalidArgument (msg : String)
  | keyError (key : String)
  | indexError
  | typeError (msg : String)
  | attributeError (msg : String)
  | valueError (msg : String)
  | exception (msg : String)
deriving Repr, DecidableEq

/-- Python's `GlpiException` and its subclasses, as caught by
`except GlpiException`. -/
def isGlpiException : PyExc → Bool
  | .glpiExc _ => true
  | .glpiInvalidArgument _ => true
  | _ => false

/-- Python's `LookupError` class: `KeyError` and `IndexError`. -/
def isLookupError : PyExc → Bool
  | .keyError _ => true
  | .indexError => true
  | _ => false

/-- Python `str(e)` for the exceptions we model (`str` of a `KeyError`
is the repr of the missing key). -/
def excMsg : PyExc → String
  | .glpiExc m => m
  | .glpiInvalidArgument m => m
  | .keyError k => "\x27" ++ k ++ "\x27"
  | .indexError => "list index out of range"
  | .typeError m => m
  | .attributeError m => m
  | .valueError m => m
  | .exception m => m

/-- An HTTP request as dispatched through `requests.request` (headers
elided: no proved property mentions them). -/
structure HttpReq where
  method : String
  url : String
  params : List (String × String)
  body : Option String
deriving Repr, DecidableEq

/-- An HTTP response: status code, parsed JSON body when the body parses
(`r.json()`), and the raw body text (`r.content`). -/
structure HttpResp where
  status : Nat
  json : Option PyVal
  content : String
deriving Repr

/-- The HTTP environment: what the server answers to each request. -/
def Env : Type := HttpReq → HttpResp

/-! ## Python string primitives -/

/-- Python `str.lower()` (ASCII case folding, which covers the strings the
claims exercise). -/
def pyLower (s : String) : String := String.mk (s.toList.map Char.toLower)

/-- Python substring containment `needle in hay` on strings. -/
def strIn (needle hay : String) : Bool :=
  (List.range (hay.toList.length + 1)).any
    (fun i => (hay.toList.drop i).take needle.toList.length == needle.toList)

/-- Python `str.strip(c)` for a single-character argument. -/
def pyStrip (s : String) (c : Char) : String :=
  String.mk (((s.toList.dropWhile (fun a => a == c)).reverse.dropWhile
    (fun a => a == c)).reverse)

/-- Python `str.strip()` with no argument: strip whitespace. -/
def pyStripWS (s : String) : String :=
  String.mk (((s.toList.dropWhile Char.isWhitespace).reverse.dropWhile
    Char.isWhitespace).reverse)

/-- Python `str.startswith(c)` for a single-character prefix. -/
def pyStartsWith (s : String) (c : Char) : Bool :=
  match s.toList with
  | [] => false
  | a :: _ => a == c

/-- Python `str.split(sep)` for a single-character separator, on char
lists: splitting never yields an empty list of fields. -/
def splitChars (sep : Char) : List Char → List (List Char)
  | [] => [[]]
  | c :: cs =>
    match splitChars sep cs with
    | [] => [[]]
    | h :: t => if c == sep then [] :: h :: t else (c :: h) :: t

/-- Python `str.split(sep)` for a single-character separator. -/
def pySplit (s : String) (sep : Char) : List String :=
  (splitChars sep s.toList).map (fun l => String.mk l)

/-- Python `str` of a list of strings, as in `"%s" % err` where `err` is
the token list produced by the HTML scraper. -/
def pyStrListRepr (l : List String) : String :=
  "[" ++ String.intercalate ", " (l.map (fun s => "\x27" ++ s ++ "\x27")) ++ "]"

/-! ## Python dict primitives (insertion-ordered association lists) -/

/-- Python `dict` lookup. -/
def dictLookup {α : Type} : List (String × α) → String → Option α
  | [], _ => Option.none
  | (k, v) :: rest, key => if k == key then Option.some v else dictLookup rest key

/-- Python `dict.update` with a single key: replace in place or append. -/
def dictUpdate {α : Type} : List (String × α) → String → α → List (String × α)
  | [], key, val => [(key, val)]
  | (k, v) :: rest, key, val =>
    if k == key then (key, val) :: rest else (k, v) :: dictUpdate rest key val

/-- Python `key in dict`. -/
def dictContains {α : Type} : List (String × α) → String → Bool
  | [], _ => false
  | (k, _) :: rest, key => k == key || dictContains rest key

/-! ## Python value formatting and generic operations -/

mutual
/-- Python `repr` of an embedded value (containers print the reprs of
their elements; `str` falls back to this for non-string values). -/
def pyRepr : PyVal → String
  | .none => "None"
  | .bool b => if b then "True" else "False"
  | .int n => toString n
  | .str s => "\x27" ++ s ++ "\x27"
  | .list l => "[" ++ pyReprSeq l ++ "]"
  | .set [] => "set()"
  | .set l => "\x7b" ++ pyReprSeq l ++ "\x7d"
  | .dict kvs => "\x7b" ++ pyReprEntries kvs ++ "\x7d"

/-- Comma-separated reprs of a sequence of values. -/
def pyReprSeq : List PyVal → String
  | [] => ""
  | [v] => pyRepr v
  | v :: vs => pyRepr v ++ ", " ++ pyReprSeq vs

/-- Comma-separated `key: value` reprs of dictionary entries. -/
def pyReprEntries : List (String × PyVal) → String
  | [] => ""
  | [(k, v)] => "\x27" ++ k ++ "\x27: " ++ pyRepr v
  | (k, v) :: kvs => "\x27" ++ k ++ "\x27: " ++ pyRepr v ++ ", " ++ pyReprEntries kvs
end

/-- Python `str(v)` / `"%s" % v`. -/
def pyStr : PyVal → String
  | .str s => s
  | v => pyRepr v

/-- Python `"%s" % v` where `v` is an optional attribute such as
`self.uri`, whose Python value may be `None`. -/
def pyStrOpt : Option String → String
  | Option.none => "None"
  | Option.some s => s

/-- Python `isinstance(v, int)` (Python `bool` is a subclass of `int`). -/
def pyIsInt : PyVal → Bool
  | .int _ => true
  | .bool _ => true
  | _ => false

/-- Python `"%d" % v` for values accepted by `isinstance(v, int)`. -/
def pyFmtInt : PyVal → String
  | .int n => toString n
  | .bool b => if b then "1" else "0"
  | _ => ""

/-- Python subscription `container[key]` for the shapes these code paths
reach: dictionaries raise `KeyError` on a missing key, strings raise
`TypeError` on non-integer indices, other receivers raise `TypeError`. -/
def pySubscript : PyVal → PyVal → Except PyExc PyVal
  | .dict kvs, .str k =>
    match dictLookup kvs k with
    | Option.some v => .ok v
    | Option.none => .error (.keyError k)
  | .dict _, k => .error (.keyError (pyRepr k))
  | .str s, .int n =>
    let l := s.toList
    let i : Int := if n < 0 then n + l.length else n
    if i < 0 then .error .indexError
    else
      match l.get? i.toNat with
      | Option.some c => .ok (.str (String.mk [c]))
      | Option.none => .error .indexError
  | .str _, _ => .error (.typeError "string indices must be integers")
  | _, _ => .error (.typeError "object is not subscriptable")

/-- Python iteration `for x in v`: lists and sets yield their elements,
strings their characters, dictionaries their keys; other values raise
`TypeError`. -/
def pyIter : PyVal → Except PyExc (List PyVal)
  | .list l => .ok l
  | .set l => .ok l
  | .str s => .ok (s.toList.map (fun c => .str (String.mk [c])))
  | .dict kvs => .ok (kvs.map (fun kv => .str kv.1))
  | _ => .error (.typeError "object is not iterable")

/-- Python membership `key in v` for a string `key`: key membership for
dictionaries, element equality for lists and sets, substring containment
for strings. -/
def pyInStr (key : String) : PyVal → Except PyExc Bool
  | .dict kvs => .ok (dictContains kvs key)
  | .list l => .ok (l.any (fun v => match v with | .str s => s == key | _ => false))
  | .set l => .ok (l.any (fun v => match v with | .str s => s == key | _ => false))
  | .str s => .ok (strIn key s)
  | _ => .error (.typeError "argument of type is not iterable")

/-- Python `str.lower()` applied to an embedded value: `AttributeError`
unless the value is a string. -/
def pyLowerV : PyVal → Except PyExc String
  | .str s => .ok (pyLower s)
  | _ => .error (.attributeError "object has no attribute lower")

/-! ## HTML error scraping (`_glpi_html_parser`) -/

/-- Text runs outside of markup tags: what `HTMLParser.handle_data`
receives for the simple HTML error pages the service emits. -/
def htmlDataRuns : List Char → Bool → List Char → List (List Char)
  | [], _, acc => [acc.reverse]
  | c :: cs, inTag, acc =>
    if inTag then
      if c == '>' then htmlDataRuns cs false []
      else htmlDataRuns cs true acc
    else
      if c == '<' then acc.reverse :: htmlDataRuns cs true []
      else htmlDataRuns cs false (c :: acc)

/-- Model of `_glpi_html_parser`: strip each data token, keep the nonempty
ones, then drop the tokens starting with a solidus (`get_data_clear`). -/
def glpiHtmlTokens (content : String) : List String :=
  ((htmlDataRuns content.toList false []).map
      (fun r => pyStripWS (String.mk r))).filter
    (fun t => t != "" && !(pyStartsWith t '/'))

/-! ## The session/transport layer `GlpiService` -/

/-- The mutable attributes of a `GlpiService` object, together with its
construction-time configuration. -/
structure GlpiService where
  url : String
  app_token : Option String
  uri : Option String
  username : Option String
  password : Option String
  token_auth : Option String
  writable : Bool
  session : Option PyVal
deriving Repr

/-- Method `set_token_auth`: the documentation placeholder collapses to
`None`. -/
def GlpiService.set_token_auth_val (token_auth : Option String) : Option String :=
  if token_auth == Option.some "YOUR AUTH TOKEN" then Option.none else token_auth

/-- Method `set_username_and_password`: the documentation placeholders
collapse to `None`. -/
def GlpiService.set_username_and_password_val (username password : Option String) :
    Option String × Option String :=
  ((if username == Option.some "YOUR SERVICE USERNAME" then Option.none else username),
   (if password == Option.some "YOUR SERVICE PASSWORD" then Option.none else password))

/-- Trailing validation in `__init__`: an app token is mandatory, and so
is one usable credential set.  The second message reproduces the source's
implicit concatenation of two adjacent string literals. -/
def GlpiService.initChecks (s : GlpiService) : Except PyExc GlpiService :=
  if s.app_token.isNone then
    .error (.glpiExc "You must specify GLPI API-Token(app_token) to make API calls")
  else if (s.username.isNone || s.password.isNone) && s.token_auth.isNone then
    .error (.glpiExc
      "You must specify your username and password, or token_authservice credentials ")
  else .ok s

/-- Construction of `GlpiService` (`__init__`): validates the credential
configuration.  `use_vcap_services` is `False` on every call the router
makes, so the VCAP branch is not modelled.  Raised exceptions surface as
`Except.error`; construction issues no HTTP request and stores no session
(`session` starts out `None`). -/
def GlpiService.init (url_apirest : String) (token_app : Option String)
    (uri username password token_auth : Option String) (writable : Bool) :
    Except PyExc GlpiService :=
  let base : GlpiService :=
    { url := url_apirest, app_token := token_app, uri := uri,
      username := username, password := password, token_auth := token_auth,
      writable := writable, session := Option.none }
  match token_auth with
  | Option.some _ =>
    if username.isSome || password.isSome then
      .error (.glpiInvalidArgument
        "Cannot set token_auth and username and password together")
    else
      GlpiService.initChecks
        { base with token_auth := GlpiService.set_token_auth_val token_auth }
  | Option.none =>
    let up := GlpiService.set_username_and_password_val username password
    GlpiService.initChecks { base with username := up.1, password := up.2 }

/-- Method `set_uri`. -/
def GlpiService.set_uri (s : GlpiService) (uri : Option String) : GlpiService :=
  { s with uri := uri }

/-- Method `update_session_token`: overwrite the stored session only with
a truthy replacement, and return the stored session. -/
def GlpiService.update_session_token (s : GlpiService) (session_id : Option PyVal) :
    Option PyVal × GlpiService :=
  match session_id with
  | Option.some t => (Option.some t, { s with session := Option.some t })
  | Option.none => (s.session, s)

/-- The run of spaces that a backslash line continuation inside a Python
string literal contributes (32 columns of indentation in the source). -/
def contSpaces : String := "                                "

/-- The `GET {base}/initSession` request (`?session_write=true` when the
service is configured writable). -/
def initSessionReq (s : GlpiService) : HttpReq :=
  { method := "GET",
    url := s.url ++ "/initSession" ++ (if s.writable then "?session_write=true" else ""),
    params := [], body := Option.none }

/-- Method `set_session_token`: on HTTP 200 whose JSON body carries a
`session_token`, store it and return `True`.  On any failure (non-200
status, unparseable body, missing key, non-dict body) the inner raise or
error is caught by the `except Exception` clause and re-raised as a
`GlpiException` whose message embeds the scraped HTML tokens of the
response body. -/
def GlpiService.set_session_token (env : Env) (s : GlpiService) :
    Except PyExc Unit × GlpiService × List HttpReq :=
  let req := initSessionReq s
  let r := env req
  let tok : Option PyVal :=
    if r.status == 200 then
      match r.json with
      | Option.some (.dict kvs) => dictLookup kvs "session_token"
      | _ => Option.none
    else Option.none
  match tok with
  | Option.some t => (.ok (), { s with session := Option.some t }, [req])
  | Option.none =>
    (.error (.glpiExc ("ERROR when try to init session in GLPI" ++ contSpaces
        ++ "server:" ++ pyStrListRepr (glpiHtmlTokens r.content))), s, [req])

/-- Method `get_session_token`: return the stored session token, lazily
calling `set_session_token` first when none is stored; a `GlpiException`
from the lazy initialization propagates unchanged. -/
def GlpiService.get_session_token (env : Env) (s : GlpiService) :
    Except PyExc (Option PyVal) × GlpiService × List HttpReq :=
  match s.session with
  | Option.some t => (.ok (Option.some t), s, [])
  | Option.none =>
    match GlpiService.set_session_token env s with
    | (.ok _, s1, tr) => (.ok s1.session, s1, tr)
    | (.error e, s1, tr) => (.error e, s1, tr)

/-- Method `request`: joins base URL and stripped path, lazily initializes
the session (re-wrapping a session failure in a fresh `GlpiException`),
then dispatches the HTTP call and returns the raw response.  Parameters
arrive here already null-free and stringly typed on every modelled call
path, so `_remove_null_values` / `_cleanup_param_values` act as
identities. -/
def GlpiService.request (env : Env) (s : GlpiService) (method url : String)
    (params : List (String × String)) (data : Option String) :
    Except PyExc HttpResp × GlpiService × List HttpReq :=
  let full_url := s.url ++ "/" ++ pyStrip url '/'
  let send := fun (s1 : GlpiService) (tr : List HttpReq) =>
    let req : HttpReq := { method := method, url := full_url, params := params, body := data }
    ((.ok (env req) : Except PyExc HttpResp), s1, tr ++ [req])
  match s.session with
  | Option.some _ => send s []
  | Option.none =>
    match GlpiService.set_session_token env s with
    | (.ok _, s1, tr) => send s1 tr
    | (.error e, s1, tr) =>
      (.error (.glpiExc ("Unable to get Session token. " ++ contSpaces
          ++ "ERROR: " ++ excMsg e)), s1, tr)

/-- Python `response.json()`: raises `ValueError` when the body does not
parse as JSON. -/
def respJson (r : HttpResp) : Except PyExc PyVal :=
  match r.json with
  | Option.some v => .ok v
  | Option.none => .error (.valueError "No JSON object could be decoded")

/-- One step of `get_payload`: append one `"key": value` fragment.  The
source's guard `data_str is not ""` behaves as inequality with the empty
string under CPython string interning. -/
def payloadPiece (data_str : String) (k : String) (v : PyVal) : String :=
  let pre := if data_str != "" then data_str ++ "," else data_str
  match v with
  | .none => pre ++ " \"" ++ k ++ "\": null"
  | .str sv => pre ++ " \"" ++ k ++ "\": \"" ++ sv ++ "\""
  | other => pre ++ " \"" ++ k ++ "\": " ++ pyStr other

/-- Method `get_payload`: hand-built key/value fragments, then the escape
fixups (double the backslashes, escape the newlines, drop the carriage
returns). -/
def GlpiService.get_payload (data_json : List (String × PyVal)) : String :=
  let s := data_json.foldl (fun acc kv => payloadPiece acc kv.1 kv.2) ""
  ((s.replace "\\" "\\\\").replace "\n" "\\n").replace "\r" ""

/-- Method `create`: with no payload return the literal string (not a
dict) and issue no HTTP traffic; otherwise POST the hand-built envelope to
the active URI and return the parsed JSON.  The `print(payload)` side
effect is elided; a `None` uri would fail inside `request` at
`url.strip`. -/
def GlpiService.create (env : Env) (s : GlpiService)
    (data_json : Option (List (String × PyVal))) :
    Except PyExc PyVal × GlpiService × List HttpReq :=
  match data_json with
  | Option.none =>
    (.ok (.str "\x7b \x27error_message\x27 : \x27Object not found.\x27\x7d"), s, [])
  | Option.some dj =>
    let payload := "\x7b\"input\": \x7b " ++ GlpiService.get_payload dj ++ " \x7d\x7d"
    match s.uri with
    | Option.none =>
      (.error (.attributeError "NoneType object has no attribute strip"), s, [])
    | Option.some u =>
      match GlpiService.request env s "POST" u [] (Option.some payload) with
      | (.ok r, s1, tr) => (respJson r, s1, tr)
      | (.error e, s1, tr) => (.error e, s1, tr)

/-- Method `get_all`: GET `self.uri + uri_query`, with a true
`expand_dropdowns` serialized as the literal string `"true"`; a `None`
uri raises `TypeError` at the string concatenation. -/
def GlpiService.get_all (env : Env) (s : GlpiService) (expand_dropdowns : Bool)
    (uri_query : String) : Except PyExc PyVal × GlpiService × List HttpReq :=
  let payload := if expand_dropdowns then [("expand_dropdowns", "true")] else []
  match s.uri with
  | Option.none => (.error (.typeError "unsupported operand type for +"), s, [])
  | Option.some u =>
    match GlpiService.request env s "GET" (u ++ uri_query) payload Option.none with
    | (.ok r, s1, tr) => (respJson r, s1, tr)
    | (.error e, s1, tr) => (.error e, s1, tr)

/-- Method `get`: an integer id GETs `{uri}/{id}` and returns the parsed
JSON; any other id returns an `error_message` dict without HTTP traffic
(`"%s/%d"` formats a `None` uri as the string `None`). -/
def GlpiService.get (env : Env) (s : GlpiService) (item_id : PyVal)
    (expand_dropdowns : Bool) : Except PyExc PyVal × GlpiService × List HttpReq :=
  if pyIsInt item_id then
    let payload := if expand_dropdowns then [("expand_dropdowns", "true")] else []
    let uri := pyStrOpt s.uri ++ "/" ++ pyFmtInt item_id
    match GlpiService.request env s "GET" uri payload Option.none with
    | (.ok r, s1, tr) => (respJson r, s1, tr)
    | (.error e, s1, tr) => (.error e, s1, tr)
  else
    (.ok (.dict [("error_message",
        .str ("Unale to get " ++ pyStrOpt s.uri ++ " ID [" ++ pyStr item_id ++ "]"))]),
     s, [])

/-- Method `get_path`: GET a literal path. -/
def GlpiService.get_path (env : Env) (s : GlpiService) (path : String) :
    Except PyExc PyVal × GlpiService × List HttpReq :=
  match GlpiService.request env s "GET" path [] Option.none with
  | (.ok r, s1, tr) => (respJson r, s1, tr)
  | (.error e, s1, tr) => (.error e, s1, tr)

/-- Method `search_options`: GET `{uri}/{item_name}`. -/
def GlpiService.search_options (env : Env) (s : GlpiService) (item_name : String) :
    Except PyExc PyVal × GlpiService × List HttpReq :=
  let new_uri := pyStrOpt s.uri ++ "/" ++ item_name
  match GlpiService.request env s "GET" new_uri [] Option.none with
  | (.ok r, s1, tr) => (respJson r, s1, tr)
  | (.error e, s1, tr) => (.error e, s1, tr)

/-- Method `search_engine` (service level): GET `{uri}/{search_query}`. -/
def GlpiService.search_engine (env : Env) (s : GlpiService) (search_query : String) :
    Except PyExc PyVal × GlpiService × List HttpReq :=
  let new_uri := pyStrOpt s.uri ++ "/" ++ search_query
  match GlpiService.request env s "GET" new_uri [] Option.none with
  | (.ok r, s1, tr) => (respJson r, s1, tr)
  | (.error e, s1, tr) => (.error e, s1, tr)

/-- Method `update`: PUT the hand-built envelope to `{uri}/{id}`; the
payload is built first, then `data['id']` is read (`KeyError` when
missing, `TypeError` when `%d` rejects it). -/
def GlpiService.update (env : Env) (s : GlpiService) (data : List (String × PyVal)) :
    Except PyExc PyVal × GlpiService × List HttpReq :=
  let payload := "\x7b\"input\": \x7b " ++ GlpiService.get_payload data ++ " \x7d\x7d"
  match dictLookup data "id" with
  | Option.none => (.error (.keyError "id"), s, [])
  | Option.some idv =>
    if pyIsInt idv then
      let new_url := pyStrOpt s.uri ++ "/" ++ pyFmtInt idv
      match GlpiService.request env s "PUT" new_url [] (Option.some payload) with
      | (.ok r, s1, tr) => (respJson r, s1, tr)
      | (.error e, s1, tr) => (.error e, s1, tr)
    else (.error (.typeError "%d format: a number is required"), s, [])

/-- Method `delete`: a non-integer id soft-fails with a `message_error`
dict and no HTTP traffic; otherwise DELETE the collection URI with a
hand-built payload (the force-purge variant reproduces the source's two
adjacent JSON objects with no separating comma). -/
def GlpiService.delete (env : Env) (s : GlpiService) (item_id : PyVal)
    (force_purge : Bool) : Except PyExc PyVal × GlpiService × List HttpReq :=
  if !(pyIsInt item_id) then
    (.ok (.dict [("message_error", .str "Please define item_id to be deleted.")]), s, [])
  else
    let payload :=
      if force_purge then
        "\x7b\"input\": \x7b \"id\": " ++ pyFmtInt item_id ++ " \x7d \"force_purge\": true\x7d"
      else
        "\x7b\"input\": \x7b \"id\": " ++ pyFmtInt item_id ++ " \x7d\x7d"
    match s.uri with
    | Option.none =>
      (.error (.attributeError "NoneType object has no attribute strip"), s, [])
    | Option.some u =>
      match GlpiService.request env s "DELETE" u [] (Option.some payload) with
      | (.ok r, s1, tr) => (respJson r, s1, tr)
      | (.error e, s1, tr) => (.error e, s1, tr)

/-! ## The resource router `GLPI` -/

/-- The attributes of a `GLPI` router object. -/
structure GLPI where
  url : String
  app_token : Option String
  auth_token : Option String
  writable : Bool
  item_map : List (String × String)
  item_uri : Option String
  api_rest : Option GlpiService
  api_session : Option PyVal
deriving Repr

/-- The pre-seeded Item Map of `GLPI.__init__`. -/
def default_item_map : List (String × String) :=
  [("ticket", "/Ticket"),
   ("knowbase", "/knowbaseitem"),
   ("listSearchOptions", "/listSearchOptions"),
   ("search", "/search"),
   ("user", "user"),
   ("getFullSession", "getFullSession"),
   ("getActiveProfile", "getActiveProfile"),
   ("getMyProfiles", "getMyProfiles"),
   ("location", "location")]

/-- Construction of `GLPI` (`__init__`): a caller-supplied `item_map`
replaces the pre-seeded one wholesale (`set_item_map`). -/
def GLPI.init (url : String) (app_token auth_token : Option String)
    (item_map : Option (List (String × String))) (writable : Bool) : GLPI :=
  { url := url, app_token := app_token, auth_token := auth_token,
    writable := writable,
    item_map := match item_map with
                | Option.some m => m
                | Option.none => default_item_map,
    item_uri := Option.none, api_rest := Option.none, api_session := Option.none }

/-- Method `set_item_map`: replace the Item Map wholesale. -/
def GLPI.set_item_map (g : GLPI) (item_map : List (String × String)) : GLPI :=
  { g with item_map := item_map }

/-- Method `help_item`. -/
def GLPI.help_item (g : GLPI) : PyVal :=
  .dict [("available_items", .dict (g.item_map.map (fun kv => (kv.1, .str kv.2))))]

/-- Method `set_item`: the bare `except` turns the `KeyError` into a
plain `Exception`, which is not a `GlpiException` and so is not caught by
the router's operation-level handlers. -/
def GLPI.set_item (g : GLPI) (item_name : String) : Except PyExc GLPI :=
  match dictLookup g.item_map item_name with
  | Option.some u => .ok { g with item_uri := Option.some u }
  | Option.none =>
    .error (.exception ("Key [" ++ item_name ++ "] not found in Item MAP"))

/-- Method `set_api_uri`: pushes the resolved URI into the service
object; with no service object yet, attribute access on `None` raises. -/
def GLPI.set_api_uri (g : GLPI) : Except PyExc GLPI :=
  match g.api_rest with
  | Option.none => .error (.attributeError "NoneType object has no attribute set_uri")
  | Option.some svc =>
    .ok { g with api_rest := Option.some (svc.set_uri g.item_uri) }

/-- Method `update_uri` (the spec's `resolveUri`): self-registering
lookup in the Item Map, then `set_item` and `set_api_uri`. -/
def GLPI.update_uri (g : GLPI) (item_name : String) : Except PyExc GLPI :=
  let reg : Except PyExc (String × GLPI) :=
    if dictContains g.item_map item_name then .ok (item_name, g)
    else if pyStartsWith item_name '/' then
      match (pySplit item_name '/').get? 1 with
      | Option.some item_name_real =>
        .ok (item_name_real,
          { g with item_map := dictUpdate g.item_map item_name_real item_name })
      | Option.none => .error .indexError
    else
      .ok (item_name,
        { g with item_map := dictUpdate g.item_map item_name ("/" ++ item_name) })
  match reg with
  | .error e => .error e
  | .ok (nm, g1) =>
    match g1.set_item nm with
    | .error e => .error e
    | .ok g2 => g2.set_api_uri

/-- Method `init_api`: build a fresh `GlpiService` (token-auth mode) and
obtain a session token from it; a construction or session failure leaves
the corresponding attributes unassigned and propagates as an exception. -/
def GLPI.init_api (env : Env) (g : GLPI) :
    Except PyExc PyVal × GLPI × List HttpReq :=
  match GlpiService.init g.url g.app_token Option.none Option.none Option.none
      g.auth_token g.writable with
  | .error e => (.error e, g, [])
  | .ok svc =>
    let g1 := { g with api_rest := Option.some svc }
    match GlpiService.get_session_token env svc with
    | (.error e, svc1, tr) => (.error e, { g1 with api_rest := Option.some svc1 }, tr)
    | (.ok sess, svc1, tr) =>
      let g2 := { g1 with api_rest := Option.some svc1, api_session := sess }
      match sess with
      | Option.some t => (.ok (.dict [("session_token", t)]), g2, tr)
      | Option.none =>
        (.ok (.dict [("message_error", .str "Unable to InitSession in GLPI Server.")]),
         g2, tr)

/-- Method `api_has_session`. -/
def GLPI.api_has_session (g : GLPI) : Bool := g.api_session.isSome

/-- The operation-level `except GlpiException as e` handler shared by all
router methods: it converts the exception into `{'{}'.format(e)}`, which
in Python is a one-element set holding the message — not a dict. -/
def catchGlpi (r : Except PyExc PyVal × GLPI × List HttpReq) :
    Except PyExc PyVal × GLPI × List HttpReq :=
  match r with
  | (.error e, g, tr) =>
    if isGlpiException e then (.ok (.set [.str (excMsg e)]), g, tr)
    else (.error e, g, tr)
  | ok => ok

/-- The shared body of every router operation's `try` block: ensure a
session (`if not api_has_session: init_api`, whose return value the
source discards), resolve the URI, then run the service-level action on
the current service object. -/
def routedCore (env : Env) (g : GLPI) (item_name : String)
    (act : GlpiService → Except PyExc PyVal × GlpiService × List HttpReq) :
    Except PyExc PyVal × GLPI × List HttpReq :=
  let ensured : Except PyExc Unit × GLPI × List HttpReq :=
    if g.api_has_session then (.ok (), g, [])
    else
      match GLPI.init_api env g with
      | (.error e, g1, tr) => (.error e, g1, tr)
      | (.ok _, g1, tr) => (.ok (), g1, tr)
  match ensured with
  | (.error e, g1, tr) => (.error e, g1, tr)
  | (.ok _, g1, tr) =>
    match g1.update_uri item_name with
    | .error e => (.error e, g1, tr)
    | .ok g2 =>
      match g2.api_rest with
      | Option.none => (.error (.attributeError "api_rest"), g2, tr)
      | Option.some svc =>
        let (r, svc1, tr2) := act svc
        (r, { g2 with api_rest := Option.some svc1 }, tr ++ tr2)

/-- Router method `create`. -/
def GLPI.create (env : Env) (g : GLPI) (item_name : String)
    (item_data : Option (List (String × PyVal))) :
    Except PyExc PyVal × GLPI × List HttpReq :=
  catchGlpi (routedCore env g item_name
    (fun svc => GlpiService.create env svc item_data))

/-- The `searchText` query-string loop of router `get_all`: the separator
variable `uri` is computed on every iteration but never appended —
faithful to the source, where it is dead code. -/
def searchTextQuery : List PyVal → Nat → String → Except PyExc String
  | [], _, uri_query => .ok uri_query
  | c :: cs, s_index, uri_query =>
    let _uri := if s_index == 0 then "" else "&"
    match pySubscript c (.str "field") with
    | .error e => .error e
    | .ok f =>
      match pySubscript c (.str "value") with
      | .error e => .error e
      | .ok v =>
        searchTextQuery cs (s_index + 1)
          (uri_query ++ "searchText[" ++ pyStr f ++ "]=" ++ pyStr v)

/-- Router method `get_all`: the query string is built before the `try`
block — `?range=0-5000` by default, or concatenated `searchText[f]=v`
fragments from `searchText['criteria']`. -/
def GLPI.get_all (env : Env) (g : GLPI) (item_name : String)
    (expand_dropdowns : Bool) (searchText : Option PyVal) :
    Except PyExc PyVal × GLPI × List HttpReq :=
  let q : Except PyExc String :=
    match searchText with
    | Option.some st =>
      match pySubscript st (.str "criteria") with
      | .error e => .error e
      | .ok crits =>
        match pyIter crits with
        | .error e => .error e
        | .ok cl => searchTextQuery cl 0 "?"
    | Option.none => .ok "?range=0-5000"
  match q with
  | .error e => (.error e, g, [])
  | .ok uri_query =>
    catchGlpi (routedCore env g item_name
      (fun svc => GlpiService.get_all env svc expand_dropdowns uri_query))

/-- Router method `get`: with no id, fetch `item_name` as a literal path;
with an id, delegate to the service-level `get`. -/
def GLPI.get (env : Env) (g : GLPI) (item_name : String) (item_id : Option PyVal)
    (expand_dropdowns : Bool) : Except PyExc PyVal × GLPI × List HttpReq :=
  catchGlpi (routedCore env g item_name
    (fun svc =>
      match item_id with
      | Option.none => GlpiService.get_path env svc item_name
      | Option.some idv => GlpiService.get env svc idv expand_dropdowns))

/-- Router method `search_options`: routes through the fixed
`listSearchOptions` resource. -/
def GLPI.search_options (env : Env) (g : GLPI) (item_name : String) :
    Except PyExc PyVal × GLPI × List HttpReq :=
  catchGlpi (routedCore env g "listSearchOptions"
    (fun svc => GlpiService.search_options env svc item_name))

/-- One criterion check of `search_criteria`:
`c['value'].lower() in d[c['field']].lower()`, in the source's evaluation
order. -/
def critStep (d c : PyVal) : Except PyExc Bool :=
  match pySubscript c (.str "value") with
  | .error e => .error e
  | .ok v =>
    match pyLowerV v with
    | .error e => .error e
    | .ok vlow =>
      match pySubscript c (.str "field") with
      | .error e => .error e
      | .ok f =>
        match pySubscript d f with
        | .error e => .error e
        | .ok fv =>
          match pyLowerV fv with
          | .error e => .error e
          | .ok flow => .ok (strIn vlow flow)

/-- The inner loop of `search_criteria`: every criterion is evaluated
(even after a match), accumulating the `find` flag. -/
def findLoop (d : PyVal) : List PyVal → Bool → Except PyExc Bool
  | [], find => .ok find
  | c :: cs, find =>
    match critStep d c with
    | .error e => .error e
    | .ok b => findLoop d cs (find || b)

/-- The outer loop of `search_criteria`: keep the records whose `find`
flag ends up true; the criteria are re-iterated per record. -/
def scanData (criteria : PyVal) : List PyVal → Except PyExc (List PyVal)
  | [] => .ok []
  | d :: ds =>
    match pyIter criteria with
    | .error e => .error e
    | .ok cl =>
      match findLoop d cl false with
      | .error e => .error e
      | .ok true =>
        match scanData criteria ds with
        | .error e => .error e
        | .ok r => .ok (d :: r)
      | .ok false => scanData criteria ds

/-- Router method `search_criteria`: client-side filtering of `data` by
`criteria`. -/
def GLPI.search_criteria (data criteria : PyVal) : Except PyExc PyVal :=
  match pyIter data with
  | .error e => .error e
  | .ok ds =>
    match scanData criteria ds with
    | .error e => .error e
    | .ok r => .ok (.list r)

/-- Router method `search_metacriteria`: an informational stub. -/
def GLPI.search_metacriteria (_metacriteria : PyVal) : PyVal :=
  .dict [("message_info", .str "Not implemented yet")]

/-- Router method `search`: dispatch on the shape of `criteria`; the
method has no `try` block of its own. -/
def GLPI.search (env : Env) (g : GLPI) (item_name : String) (criteria : PyVal)
    (expand_dropdowns : Bool) : Except PyExc PyVal × GLPI × List HttpReq :=
  match pyInStr "criteria" criteria with
  | .error e => (.error e, g, [])
  | .ok true =>
    match GLPI.get_all env g item_name expand_dropdowns Option.none with
    | (.error e, g1, tr) => (.error e, g1, tr)
    | (.ok data, g1, tr) =>
      match pySubscript criteria (.str "criteria") with
      | .error e => (.error e, g1, tr)
      | .ok cl =>
        match GLPI.search_criteria data cl with
        | .error e => (.error e, g1, tr)
        | .ok r => (.ok r, g1, tr)
  | .ok false =>
    match pyInStr "metacriteria" criteria with
    | .error e => (.error e, g, [])
    | .ok true =>
      match pySubscript criteria (.str "metacriteria") with
      | .error e => (.error e, g, [])
      | .ok m => (.ok (GLPI.search_metacriteria m), g, [])
    | .ok false =>
      (.ok (.dict [("message_error", .str "Unable to find a valid criteria.")]), g, [])

/-- The static field-code table of router `search_engine`. -/
def field_map : List (String × Int) :=
  [("name", 1), ("id", 2), ("location", 3), ("type", 4), ("serialnumber", 5),
   ("body", 6), ("processor", 17), ("lastupdate", 19), ("manufacturer", 23),
   ("status", 31), ("model", 40), ("tags", 10500), ("operatingsystem", 45)]

/-- Evaluation of `field_map[c['field']]`: unmapped (or non-string) field
names raise `KeyError`, a `LookupError`. -/
def fieldCode (f : PyVal) : Except PyExc Int :=
  match f with
  | .str s =>
    match dictLookup field_map s with
    | Option.some n => .ok n
    | Option.none => .error (.keyError s)
  | other => .error (.keyError (pyRepr other))

/-- The criteria loop of router `search_engine`, building the
`criteria[i][...]` fragments in the source's evaluation order. -/
def engineQuery : List PyVal → Nat → String → Except PyExc String
  | [], _, uri_query => .ok uri_query
  | c :: cs, s_index, uri_query =>
    let sep := if s_index == 0 then "" else "&"
    match pySubscript c (.str "field") with
    | .error e => .error e
    | .ok f =>
      match fieldCode f with
      | .error e => .error e
      | .ok code =>
        let uri1 := sep ++ "criteria[" ++ toString s_index ++ "][field]=" ++
          toString code ++ "&"
        match pySubscript c (.str "value") with
        | .error e => .error e
        | .ok v =>
          let uri2 := uri1 ++ "criteria[" ++ toString s_index ++ "][value]=" ++
            (match v with | .none => "" | other => pyStr other) ++ "&"
          match pySubscript c (.str "searchtype") with
          | .error e => .error e
          | .ok st =>
            let uri3 := uri2 ++ "criteria[" ++ toString s_index ++
              "][searchtype]=" ++ pyStr st ++ "&"
            match pySubscript c (.str "link") with
            | .error e => .error e
            | .ok lk =>
              engineQuery cs (s_index + 1)
                (uri_query ++ uri3 ++ "criteria[" ++ toString s_index ++
                  "][link]=" ++ pyStr lk)

/-- Router method `search_engine`: the server-side query string is built
before the `try` block (`"%s?" % item_name` prefix, `&range=0-5000`
suffix), so a criteria failure raises before any session or HTTP
activity; the request is then routed through the `search` resource via
the service-level `search_options`. -/
def GLPI.search_engine (env : Env) (g : GLPI) (item_name : String)
    (criteria : PyVal) : Except PyExc PyVal × GLPI × List HttpReq :=
  let q : Except PyExc String :=
    match pySubscript criteria (.str "criteria") with
    | .error e => .error e
    | .ok crits =>
      match pyIter crits with
      | .error e => .error e
      | .ok cl => engineQuery cl 0 (item_name ++ "?")
  match q with
  | .error e => (.error e, g, [])
  | .ok uri_query0 =>
    let uri_query := uri_query0 ++ "&range=0-5000"
    catchGlpi (routedCore env g "search"
      (fun svc => GlpiService.search_options env svc uri_query))

/-- Router method `update`. -/
def GLPI.update (env : Env) (g : GLPI) (item_name : String)
    (data : List (String × PyVal)) : Except PyExc PyVal × GLPI × List HttpReq :=
  catchGlpi (routedCore env g item_name
    (fun svc => GlpiService.update env svc data))

/-- Router method `delete`. -/
def GLPI.delete (env : Env) (g : GLPI) (item_name : String) (item_id : PyVal)
    (force_purge : Bool) : Except PyExc PyVal × GLPI × List HttpReq :=
  catchGlpi (routedCore env g item_name
    (fun svc => GlpiService.delete env svc item_id force_purge))

/-! ## Lemmas about the dictionary model -/

theorem dictLookup_update_self {α : Type} (m : List (String × α)) (k : String) (v : α) :
    dictLookup (dictUpdate m k v) k = Option.some v := by
  induction m with
  | nil => simp [dictUpdate, dictLookup]
  | cons kv rest ih =>
    obtain ⟨k1, v1⟩ := kv
    by_cases h : k1 == k
    · simp [dictUpdate, h, dictLookup]
    · simp [dictUpdate, h, dictLookup, ih]

theorem dictLookup_update_ne {α : Type} (m : List (String × α)) (k k' : String)
    (v : α) (h : k' ≠ k) :
    dictLookup (dictUpdate m k v) k' = dictLookup m k' := by
  induction m with
  | nil => simp [dictUpdate, dictLookup, h, Ne.symm h]
  | cons kv rest ih =>
    obtain ⟨k1, v1⟩ := kv
    by_cases h1 : k1 == k
    · have hk : k1 = k := by simpa using h1
      subst hk
      simp [dictUpdate, dictLookup, h, Ne.symm h]
    · simp [dictUpdate, h1, dictLookup, ih]

theorem dictContains_eq_isSome {α : Type} (m : List (String × α)) (k : String) :
    dictContains m k = (dictLookup m k).isSome := by
  induction m with
  | nil => simp [dictContains, dictLookup]
  | cons kv rest ih =>
    obtain ⟨k1, v1⟩ := kv
    by_cases h : k1 == k
    · simp [dictContains, dictLookup, h]
    · simp [dictContains, dictLookup, h, ih]

theorem splitChars_ne_nil (sep : Char) (l : List Char) : splitChars sep l ≠ [] := by
  cases l with
  | nil => simp [splitChars]
  | cons c cs =>
    rw [splitChars]
    rcases hsp : splitChars sep cs with _ | ⟨hd, tl⟩
    · simp
    · by_cases hc : c == sep <;> simp [hc]

theorem pySplit_get1 (s : String) (sep : Char) (h : pyStartsWith s sep = true) :
    ∃ r, (pySplit s sep)[1]? = Option.some r := by
  unfold pyStartsWith at h
  rcases hs : s.toList with _ | ⟨c, cs⟩
  · rw [hs] at h; simp at h
  · rw [hs] at h
    simp at h
    subst h
    unfold pySplit
    rw [hs, splitChars]
    rcases hsp : splitChars c cs with _ | ⟨hd, tl⟩
    · exact absurd hsp (splitChars_ne_nil c cs)
    · refine ⟨String.mk hd, ?_⟩
      simp [hsp]

/-! ## Characterization of `update_uri` (the spec's `resolveUri`) -/

theorem update_uri_spec_found (g : GLPI) (svc : GlpiService) (name u : String)
    (hr : g.api_rest = Option.some svc)
    (hl : dictLookup g.item_map name = Option.some u) :
    GLPI.update_uri g name = .ok { g with
      item_uri := Option.some u
      api_rest := Option.some (GlpiService.set_uri svc (Option.some u)) } := by
  have hc : dictContains g.item_map name = true := by
    rw [dictContains_eq_isSome, hl]; rfl
  unfold GLPI.update_uri GLPI.set_item GLPI.set_api_uri
  simp [hc, hl, hr]

theorem update_uri_spec_fresh (g : GLPI) (svc : GlpiService) (name : String)
    (hr : g.api_rest = Option.some svc)
    (hc : dictContains g.item_map name = false)
    (hsw : pyStartsWith name '/' = false) :
    GLPI.update_uri g name = .ok { g with
      item_map := dictUpdate g.item_map name ("/" ++ name)
      item_uri := Option.some ("/" ++ name)
      api_rest := Option.some (GlpiService.set_uri svc (Option.some ("/" ++ name))) } := by
  unfold GLPI.update_uri GLPI.set_item GLPI.set_api_uri
  simp [hc, hsw, hr, dictLookup_update_self]

theorem update_uri_spec_path (g : GLPI) (svc : GlpiService) (name real : String)
    (hr : g.api_rest = Option.some svc)
    (hc : dictContains g.item_map name = false)
    (hsw : pyStartsWith name '/' = true)
    (hsp : (pySplit name '/')[1]? = Option.some real) :
    GLPI.update_uri g name = .ok { g with
      item_map := dictUpdate g.item_map real name
      item_uri := Option.some name
      api_rest := Option.some (GlpiService.set_uri svc (Option.some name)) } := by
  unfold GLPI.update_uri GLPI.set_item GLPI.set_api_uri
  simp [hc, hsw, hsp, hr, dictLookup_update_self]

theorem update_uri_ok (g : GLPI) (svc : GlpiService) (name : String)
    (hr : g.api_rest = Option.some svc) :
    ∃ u m', GLPI.update_uri g name = .ok { g with
      item_map := m'
      item_uri := Option.some u
      api_rest := Option.some (GlpiService.set_uri svc (Option.some u)) } := by
  by_cases hc : dictContains g.item_map name = true
  · rw [dictContains_eq_isSome] at hc
    rcases ho : dictLookup g.item_map name with _ | u
    · rw [ho] at hc; simp at hc
    · exact ⟨u, g.item_map, update_uri_spec_found g svc name u hr ho⟩
  · have hc' : dictContains g.item_map name = false := by simpa using hc
    by_cases hsw : pyStartsWith name '/' = true
    · rcases pySplit_get1 name '/' hsw with ⟨real, hsp⟩
      exact ⟨name, dictUpdate g.item_map real name,
        update_uri_spec_path g svc name real hr hc' hsw hsp⟩
    · have hsw' : pyStartsWith name '/' = false := by simpa using hsw
      exact ⟨"/" ++ name, dictUpdate g.item_map name ("/" ++ name),
        update_uri_spec_fresh g svc name hr hc' hsw'⟩

/-! ## Router plumbing -/

/-- With a session recorded and a service object attached, the shared
`try`-block body skips session initialization, resolves the URI, and runs
the action on the service object carrying the resolved URI; only the
action's requests are issued. -/
theorem routedCore_with_session (env : Env) (g : GLPI) (svc : GlpiService)
    (name : String) (t : PyVal)
    (act : GlpiService → Except PyExc PyVal × GlpiService × List HttpReq)
    (hs : g.api_session = Option.some t) (hr : g.api_rest = Option.some svc) :
    ∃ u m', routedCore env g name act =
      ((act (GlpiService.set_uri svc (Option.some u))).1,
       { g with
         item_map := m'
         item_uri := Option.some u
         api_rest := Option.some (act (GlpiService.set_uri svc (Option.some u))).2.1 },
       (act (GlpiService.set_uri svc (Option.some u))).2.2) := by
  rcases update_uri_ok g svc name hr with ⟨u, m', hupd⟩
  refine ⟨u, m', ?_⟩
  have hhas : g.api_has_session = true := by simp [GLPI.api_has_session, hs]
  unfold routedCore
  rw [hhas]
  simp only [if_true, hupd]
  rcases hact : act (GlpiService.set_uri svc (Option.some u)) with ⟨r, svc1, tr2⟩
  simp [hact]

/-! ## Shared concrete test fixtures -/

/-- A concrete environment whose server always answers HTTP 200 with a
fresh session token. -/
def envInitOk : Env := fun _ =>
  { status := 200, json := Option.some (.dict [("session_token", .str "sess42")]),
    content := "" }

/-- A freshly constructed router with valid credentials and the default
Item Map. -/
def gFresh : GLPI :=
  GLPI.init "http://glpi.example.com/apirest.php" (Option.some "app-token-1")
    (Option.some "auth-token-1") Option.none false

/-- The service object `init_api` builds for `gFresh`, as of just after a
successful session initialization under `envInitOk`. -/
def svcLive : GlpiService :=
  { url := "http://glpi.example.com/apirest.php"
    app_token := Option.some "app-token-1"
    uri := Option.none
    username := Option.none
    password := Option.none
    token_auth := Option.some "auth-token-1"
    writable := false
    session := Option.some (.str "sess42") }

/-- A router state holding a live session. -/
def gLive : GLPI := { gFresh with
  api_rest := Option.some svcLive
  api_session := Option.some (.str "sess42") }

/-! ## Claim C2 -/

/-- C2: once a session token is stored, `get_session_token` returns that
same token with no HTTP traffic and no state change; with no stored
token, it first performs `initSession` (exactly one HTTP request) and
then returns the token it stored. -/
theorem claim_C2_get_session_token (svc : GlpiService) (env : Env) :
    (∀ t, svc.session = Option.some t →
      GlpiService.get_session_token env svc = (.ok (Option.some t), svc, [])) ∧
    (∀ tok cont, svc.session = Option.none →
      env (initSessionReq svc) =
        { status := 200, json := Option.some (.dict [("session_token", tok)]),
          content := cont } →
      GlpiService.get_session_token env svc =
        (.ok (Option.some tok), { svc with session := Option.some tok },
         [initSessionReq svc])) := by
  constructor
  · intro t ht
    unfold GlpiService.get_session_token
    rw [ht]
  · intro tok cont hnone henv
    unfold GlpiService.get_session_token
    rw [hnone]
    simp [GlpiService.set_session_token, henv, dictLookup]

/-- Witness for C2 at concrete inputs: a stored token is returned without
HTTP traffic, and a token-less client initializes lazily exactly once. -/
theorem claim_C2_witness :
    GlpiService.get_session_token envInitOk svcLive =
      (.ok (Option.some (.str "sess42")), svcLive, []) ∧
    GlpiService.get_session_token envInitOk { svcLive with session := Option.none } =
      (.ok (Option.some (.str "sess42")),
       { svcLive with session := Option.some (.str "sess42") },
       [initSessionReq { svcLive with session := Option.none }]) := by
  constructor
  · exact (claim_C2_get_session_token svcLive envInitOk).1 (.str "sess42") rfl
  · exact (claim_C2_get_session_token { svcLive with session := Option.none }
      envInitOk).2 (.str "sess42") "" rfl rfl

/-! ## Claim C8 -/

/-- C8: constructing the transport layer with an auth token together with
a username or password fails with the `ConfigError`-class
`GlpiInvalidArgument`, and the failed construction yields no service
object — hence no session state (the constructor issues no HTTP request
and `session` would in any case start out `None`). -/
theorem claim_C8_token_and_password (url : String)
    (token_app uri username password : Option String) (tok : String)
    (writable : Bool) (h : username.isSome || password.isSome) :
    GlpiService.init url token_app uri username password (Option.some tok) writable =
      .error (.glpiInvalidArgument
        "Cannot set token_auth and username and password together") ∧
    ∀ s : GlpiService,
      GlpiService.init url token_app uri username password (Option.some tok) writable
        ≠ .ok s := by
  have hmain :
      GlpiService.init url token_app uri username password (Option.some tok) writable =
        .error (.glpiInvalidArgument
          "Cannot set token_auth and username and password together") := by
    unfold GlpiService.init
    simp [h]
  refine ⟨hmain, ?_⟩
  intro s hok
  rw [hmain] at hok
  exact Except.noConfusion hok

/-- Witness for C8: auth token plus username. -/
theorem claim_C8_witness :
    GlpiService.init "http://glpi.example.com/apirest.php" (Option.some "app-token-1")
      Option.none (Option.some "alice") Option.none (Option.some "tok-1") false =
      .error (.glpiInvalidArgument
        "Cannot set token_auth and username and password together") ∧
    ∀ s : GlpiService,
      GlpiService.init "http://glpi.example.com/apirest.php" (Option.some "app-token-1")
        Option.none (Option.some "alice") Option.none (Option.some "tok-1") false
        ≠ .ok s :=
  claim_C8_token_and_password "http://glpi.example.com/apirest.php"
    (Option.some "app-token-1") Option.none (Option.some "alice") Option.none
    "tok-1" false (by decide)

/-! ## Claim C9 -/

/-- C9: the transport layer's `create` with no payload issues no HTTP
request and returns the literal string
`{ 'error_message' : 'Object not found.'}` — a `str`, which equals no
dict value, so dict-shape error checks miss it. -/
theorem claim_C9_create_none (env : Env) (svc : GlpiService) :
    GlpiService.create env svc Option.none =
      (.ok (.str "\x7b \x27error_message\x27 : \x27Object not found.\x27\x7d"), svc, [])
    ∧ ∀ kvs, (.str "\x7b \x27error_message\x27 : \x27Object not found.\x27\x7d" : PyVal)
        ≠ .dict kvs := by
  refine ⟨rfl, ?_⟩
  intro kvs h
  exact PyVal.noConfusion h

/-! ## Claim C3 -/

/-- C3: `resolveUri` (`update_uri`) resolves the pre-seeded `"ticket"` to
`/Ticket`; an absent `"/customthing"` registers
`customthing ↦ /customthing` and a subsequent call with `"customthing"`
reuses that mapping unchanged; an absent `"foo"` (no leading separator)
is registered as `foo ↦ /foo`. -/
theorem claim_C3_resolveUri (g : GLPI) (svc : GlpiService)
    (hr : g.api_rest = Option.some svc) :
    (g.item_map = default_item_map →
      GLPI.update_uri g "ticket" = .ok { g with
        item_uri := Option.some "/Ticket"
        api_rest := Option.some (GlpiService.set_uri svc (Option.some "/Ticket")) }) ∧
    (dictContains g.item_map "/customthing" = false →
      ∃ g', GLPI.update_uri g "/customthing" = .ok g' ∧
        g'.item_map = dictUpdate g.item_map "customthing" "/customthing" ∧
        dictLookup g'.item_map "customthing" = Option.some "/customthing" ∧
        g'.item_uri = Option.some "/customthing" ∧
        ∃ g'', GLPI.update_uri g' "customthing" = .ok g'' ∧
          g''.item_map = g'.item_map ∧
          g''.item_uri = Option.some "/customthing") ∧
    (dictContains g.item_map "foo" = false →
      ∃ g', GLPI.update_uri g "foo" = .ok g' ∧
        g'.item_map = dictUpdate g.item_map "foo" "/foo" ∧
        dictLookup g'.item_map "foo" = Option.some "/foo" ∧
        g'.item_uri = Option.some "/foo") := by
  refine ⟨?_, ?_, ?_⟩
  · intro hm
    have hl : dictLookup g.item_map "ticket" = Option.some "/Ticket" := by
      rw [hm]; decide
    exact update_uri_spec_found g svc "ticket" "/Ticket" hr hl
  · intro hc
    have hpath := update_uri_spec_path g svc "/customthing" "customthing" hr hc
      (by decide) (by decide)
    refine ⟨_, hpath, rfl, dictLookup_update_self g.item_map "customthing" "/customthing",
      rfl, ?_⟩
    have hl2 : dictLookup (dictUpdate g.item_map "customthing" "/customthing")
        "customthing" = Option.some "/customthing" :=
      dictLookup_update_self g.item_map "customthing" "/customthing"
    have hfound := update_uri_spec_found
      { g with
        item_map := dictUpdate g.item_map "customthing" "/customthing"
        item_uri := Option.some "/customthing"
        api_rest := Option.some (GlpiService.set_uri svc (Option.some "/customthing")) }
      (GlpiService.set_uri svc (Option.some "/customthing"))
      "customthing" "/customthing" rfl hl2
    exact ⟨_, hfound, rfl, rfl⟩
  · intro hc
    have hfresh := update_uri_spec_fresh g svc "foo" hr hc (by decide)
    exact ⟨_, hfresh, rfl, dictLookup_update_self g.item_map "foo" "/foo", rfl⟩

/-- Witness for C3 on a live router with the default Item Map. -/
theorem claim_C3_witness :
    (GLPI.update_uri gLive "ticket" = .ok { gLive with
      item_uri := Option.some "/Ticket"
      api_rest := Option.some (GlpiService.set_uri svcLive (Option.some "/Ticket")) }) ∧
    (∃ g', GLPI.update_uri gLive "/customthing" = .ok g' ∧
      g'.item_map = dictUpdate gLive.item_map "customthing" "/customthing" ∧
      dictLookup g'.item_map "customthing" = Option.some "/customthing" ∧
      g'.item_uri = Option.some "/customthing" ∧
      ∃ g'', GLPI.update_uri g' "customthing" = .ok g'' ∧
        g''.item_map = g'.item_map ∧
        g''.item_uri = Option.some "/customthing") ∧
    (∃ g', GLPI.update_uri gLive "foo" = .ok g' ∧
      g'.item_map = dictUpdate gLive.item_map "foo" "/foo" ∧
      dictLookup g'.item_map "foo" = Option.some "/foo" ∧
      g'.item_uri = Option.some "/foo") :=
  ⟨(claim_C3_resolveUri gLive svcLive rfl).1 rfl,
   (claim_C3_resolveUri gLive svcLive rfl).2.1 (by decide),
   (claim_C3_resolveUri gLive svcLive rfl).2.2 (by decide)⟩

/-! ## Claim C10 -/

/-- Case analysis of the Item Map after `update_uri`: unchanged when the
name was present; extended at the name itself for a fresh plain name;
updated at the derived bare name for a fresh path-form name. -/
theorem update_uri_map_cases (g g' : GLPI) (name : String)
    (hupd : GLPI.update_uri g name = .ok g') :
    (g'.item_map = g.item_map ∧ dictContains g.item_map name = true) ∨
    (pyStartsWith name '/' = false ∧ dictContains g.item_map name = false ∧
      g'.item_map = dictUpdate g.item_map name ("/" ++ name)) ∨
    (∃ real, pyStartsWith name '/' = true ∧ dictContains g.item_map name = false ∧
      (pySplit name '/')[1]? = Option.some real ∧
      g'.item_map = dictUpdate g.item_map real name) := by
  unfold GLPI.update_uri GLPI.set_item GLPI.set_api_uri at hupd
  simp only [List.get?_eq_getElem?] at hupd
  by_cases hc : dictContains g.item_map name = true
  · left
    simp only [hc, if_true] at hupd
    rcases ho : dictLookup g.item_map name with _ | u <;> rw [ho] at hupd
    · simp at hupd
    · rcases ha : g.api_rest with _ | svc <;> simp [ha] at hupd
      exact ⟨by rw [← hupd], hc⟩
  · have hc' : dictContains g.item_map name = false := by simpa using hc
    by_cases hsw : pyStartsWith name '/' = true
    · right; right
      simp only [hc', Bool.false_eq_true, if_false, hsw, if_true] at hupd
      rcases hsp : (pySplit name '/')[1]? with _ | real <;> rw [hsp] at hupd
      · simp at hupd
      · refine ⟨real, hsw, hc', rfl, ?_⟩
        simp only [dictLookup_update_self] at hupd
        rcases ha : g.api_rest with _ | svc <;> simp [ha] at hupd
        rw [← hupd]
    · right; left
      have hsw' : pyStartsWith name '/' = false := by simpa using hsw
      simp only [hc', Bool.false_eq_true, if_false, hsw', dictLookup_update_self] at hupd
      rcases ha : g.api_rest with _ | svc <;> simp [ha] at hupd
      exact ⟨hsw', hc', by rw [← hupd]⟩

/-- Preservation of key presence under a single-key dict update. -/
theorem dictContains_update_of_contains {α : Type} (m : List (String × α))
    (k k' : String) (v : α) (h : dictContains m k' = true) :
    dictContains (dictUpdate m k v) k' = true := by
  rw [dictContains_eq_isSome] at h ⊢
  by_cases he : k' = k
  · subst he; rw [dictLookup_update_self]; rfl
  · rw [dictLookup_update_ne m k k' v he]; exact h

/-- C10 amended: `update_uri` never removes Item Map entries; an existing
binding can change only when the call's argument is a path-form name
(leading `/`) whose derived bare name is that binding's key, in which
case the key is rebound to the argument path.  Plain names and names
already present never disturb existing bindings. -/
theorem claim_C10_update_uri_monotone (g g' : GLPI) (name : String)
    (hupd : GLPI.update_uri g name = .ok g') :
    (∀ k, dictContains g.item_map k = true → dictContains g'.item_map k = true) ∧
    (∀ k v, dictLookup g.item_map k = Option.some v →
      dictLookup g'.item_map k = Option.some v ∨
      (pyStartsWith name '/' = true ∧ (pySplit name '/')[1]? = Option.some k ∧
        dictLookup g'.item_map k = Option.some name)) := by
  rcases update_uri_map_cases g g' name hupd with
    ⟨hmap, _⟩ | ⟨_, hcf, hmap⟩ | ⟨real, hsw, _, hsp, hmap⟩
  · exact ⟨fun k hk => by rw [hmap]; exact hk,
      fun k v hv => Or.inl (by rw [hmap]; exact hv)⟩
  · refine ⟨fun k hk => by rw [hmap]; exact dictContains_update_of_contains _ _ _ _ hk,
      fun k v hv => Or.inl ?_⟩
    rw [hmap]
    by_cases he : k = name
    · subst he
      rw [dictContains_eq_isSome, hv] at hcf
      simp at hcf
    · rw [dictLookup_update_ne g.item_map name k ("/" ++ name) he]
      exact hv
  · refine ⟨fun k hk => by rw [hmap]; exact dictContains_update_of_contains _ _ _ _ hk,
      fun k v hv => ?_⟩
    by_cases he : k = real
    · subst he
      exact Or.inr ⟨hsw, hsp, by rw [hmap, dictLookup_update_self]⟩
    · exact Or.inl (by rw [hmap, dictLookup_update_ne g.item_map real k name he]; exact hv)

/-- The router state after `update_uri gLive "/ticket"`: the pre-seeded
binding for `ticket` has been replaced. -/
def gRebound : GLPI := { gLive with
  item_map := dictUpdate gLive.item_map "ticket" "/ticket"
  item_uri := Option.some "/ticket"
  api_rest := Option.some (GlpiService.set_uri svcLive (Option.some "/ticket")) }

/-- C10 counterexample: on the pre-seeded map, `update_uri "/ticket"`
overwrites the existing binding `ticket ↦ /Ticket` with
`ticket ↦ /ticket`, so `update_uri` does not preserve existing
bindings. -/
theorem claim_C10_counterexample :
    dictLookup gLive.item_map "ticket" = Option.some "/Ticket" ∧
    GLPI.update_uri gLive "/ticket" = .ok gRebound ∧
    dictLookup gRebound.item_map "ticket" = Option.some "/ticket" ∧
    dictLookup gRebound.item_map "ticket" ≠ Option.some "/Ticket" := by
  refine ⟨by decide, rfl, by decide, by decide⟩

/-- Witness for the amended C10, instantiated at the rebinding call. -/
theorem claim_C10_witness :
    dictContains gRebound.item_map "ticket" = true ∧
    (dictLookup gRebound.item_map "ticket" = Option.some "/Ticket" ∨
      (pyStartsWith "/ticket" '/' = true ∧
        (pySplit "/ticket" '/')[1]? = Option.some "ticket" ∧
        dictLookup gRebound.item_map "ticket" = Option.some "/ticket")) := by
  have h := claim_C10_update_uri_monotone gLive gRebound "/ticket" rfl
  exact ⟨h.1 "ticket" (by decide), h.2 "ticket" "/Ticket" (by decide)⟩

/-! ## Claim C6 -/

/-- The lazy `initSession` request a fresh client issues. -/
def reqInitFresh : HttpReq :=
  { method := "GET", url := "http://glpi.example.com/apirest.php/initSession",
    params := [], body := Option.none }

/-- C6 counterexample: on a fresh client (no session yet), router `get`
with the non-integer id `"abc"` does issue an HTTP call — the lazy
`initSession` request — so "never issues an HTTP call" fails, even though
the call returns an `error_message` map without raising. -/
theorem claim_C6_counterexample :
    (GLPI.get envInitOk gFresh "ticket" (Option.some (.str "abc")) false).1 =
      .ok (.dict [("error_message", .str "Unale to get /Ticket ID [abc]")]) ∧
    (GLPI.get envInitOk gFresh "ticket" (Option.some (.str "abc")) false).2.2 =
      [reqInitFresh] ∧
    [reqInitFresh] ≠ ([] : List HttpReq) := by
  refine ⟨rfl, rfl, by decide⟩

/-- C6 amended: with a non-integer id the router's `get` returns a
structured `error_message` map and raises nothing; when a session is
already present it issues no HTTP call at all — on a fresh client the one
HTTP call is the lazy session initialization (see the counterexample). -/
theorem claim_C6_get_nonint_id (env : Env) (g : GLPI) (svc : GlpiService)
    (t idv : PyVal) (name : String) (expand : Bool)
    (hs : g.api_session = Option.some t) (hr : g.api_rest = Option.some svc)
    (hid : pyIsInt idv = false) :
    ∃ m g', GLPI.get env g name (Option.some idv) expand =
      (.ok (.dict [("error_message", .str m)]), g', []) := by
  have hdef : GLPI.get env g name (Option.some idv) expand =
      catchGlpi (routedCore env g name
        (fun s => GlpiService.get env s idv expand)) := rfl
  rcases routedCore_with_session env g svc name t
      (fun s => GlpiService.get env s idv expand) hs hr with ⟨u, m', hcore⟩
  have hact : GlpiService.get env (GlpiService.set_uri svc (Option.some u)) idv expand =
      (.ok (.dict [("error_message",
        .str ("Unale to get " ++ u ++ " ID [" ++ pyStr idv ++ "]"))]),
       GlpiService.set_uri svc (Option.some u), []) := by
    unfold GlpiService.get
    simp [hid, GlpiService.set_uri, pyStrOpt]
  refine ⟨"Unale to get " ++ u ++ " ID [" ++ pyStr idv ++ "]",
    { g with
      item_map := m'
      item_uri := Option.some u
      api_rest := Option.some (GlpiService.set_uri svc (Option.some u)) }, ?_⟩
  rw [hdef, hcore]
  simp only [hact]
  rfl

/-- Witness for the amended C6: a live-session router, id `"abc"`. -/
theorem claim_C6_witness :
    ∃ m g', GLPI.get envInitOk gLive "ticket" (Option.some (.str "abc")) false =
      (.ok (.dict [("error_message", .str m)]), g', []) :=
  claim_C6_get_nonint_id envInitOk gLive svcLive (.str "sess42") (.str "abc")
    "ticket" false rfl rfl rfl

/-! ## Claim C5 -/

/-- The `search_engine` query builder raises `KeyError` on the first
criterion whose field name is unmapped, provided every criterion carries
the four expected keys with a string field name. -/
theorem engineQuery_unmapped :
    ∀ (cs : List PyVal),
    (∀ c ∈ cs, ∃ entries, c = .dict entries ∧
      (∃ f, dictLookup entries "field" = Option.some (.str f)) ∧
      (dictLookup entries "value").isSome ∧
      (dictLookup entries "searchtype").isSome ∧
      (dictLookup entries "link").isSome) →
    (∃ c ∈ cs, ∃ entries f, c = .dict entries ∧
      dictLookup entries "field" = Option.some (.str f) ∧
      dictContains field_map f = false) →
    ∀ idx acc, ∃ f, dictContains field_map f = false ∧
      engineQuery cs idx acc = .error (.keyError f) := by
  intro cs
  induction cs with
  | nil =>
    intro _ hbad
    rcases hbad with ⟨c, hc, _⟩
    simp at hc
  | cons c rest ih =>
    intro hwf hbad idx acc
    rcases hwf c (by simp) with ⟨entries, rfl, ⟨f, hf⟩, hv, hst, hlk⟩
    have hwf' : ∀ c ∈ rest, ∃ entries, c = .dict entries ∧
        (∃ f, dictLookup entries "field" = Option.some (.str f)) ∧
        (dictLookup entries "value").isSome ∧
        (dictLookup entries "searchtype").isSome ∧
        (dictLookup entries "link").isSome :=
      fun c hc => hwf c (List.mem_cons_of_mem _ hc)
    by_cases hfm : dictContains field_map f = true
    · have hbad' : ∃ c ∈ rest, ∃ entries f, c = .dict entries ∧
          dictLookup entries "field" = Option.some (.str f) ∧
          dictContains field_map f = false := by
        rcases hbad with ⟨c', hc', entries', f', hce, hfe, hbadf⟩
        rcases List.mem_cons.1 hc' with heq | hmem
        · rw [heq] at hce
          injection hce with hEq
          subst hEq
          rw [hf] at hfe
          injection hfe with hE2
          injection hE2 with hE3
          subst hE3
          rw [hfm] at hbadf
          exact Bool.noConfusion hbadf
        · exact ⟨c', hmem, entries', f', hce, hfe, hbadf⟩
      have hiso : (dictLookup field_map f).isSome := by
        rw [← dictContains_eq_isSome]; exact hfm
      rcases hcode : dictLookup field_map f with _ | code
      · rw [hcode] at hiso; simp at hiso
      rcases hv0 : dictLookup entries "value" with _ | v
      · rw [hv0] at hv; simp at hv
      rcases hst0 : dictLookup entries "searchtype" with _ | st
      · rw [hst0] at hst; simp at hst
      rcases hlk0 : dictLookup entries "link" with _ | lk
      · rw [hlk0] at hlk; simp at hlk
      simp only [engineQuery, pySubscript, hf, fieldCode, hcode, hv0, hst0, hlk0]
      exact ih hwf' hbad' _ _
    · have hfm' : dictContains field_map f = false := by simpa using hfm
      have hnone : dictLookup field_map f = Option.none := by
        rw [dictContains_eq_isSome] at hfm'
        rcases h0 : dictLookup field_map f with _ | code
        · rfl
        · rw [h0] at hfm'; simp at hfm'
      refine ⟨f, hfm', ?_⟩
      simp only [engineQuery, pySubscript, hf, fieldCode, hnone]

/-- C5: a criteria list containing a field name outside the static
`field_map` makes `search_engine` raise `KeyError` — in Python a
`LookupError` — while still building the query string, before any
session initialization or HTTP call: the router state is returned
unchanged and the request trace is empty. -/
theorem claim_C5_search_engine_unmapped (env : Env) (g : GLPI) (name : String)
    (kvs : List (String × PyVal)) (cs : List PyVal)
    (hcl : dictLookup kvs "criteria" = Option.some (.list cs))
    (hwf : ∀ c ∈ cs, ∃ entries, c = .dict entries ∧
      (∃ f, dictLookup entries "field" = Option.some (.str f)) ∧
      (dictLookup entries "value").isSome ∧
      (dictLookup entries "searchtype").isSome ∧
      (dictLookup entries "link").isSome)
    (hbad : ∃ c ∈ cs, ∃ entries f, c = .dict entries ∧
      dictLookup entries "field" = Option.some (.str f) ∧
      dictContains field_map f = false) :
    ∃ f, dictContains field_map f = false ∧
      isLookupError (.keyError f) = true ∧
      GLPI.search_engine env g name (.dict kvs) =
        (.error (.keyError f), g, []) := by
  rcases engineQuery_unmapped cs hwf hbad 0 (name ++ "?") with ⟨f, hfm, heq⟩
  refine ⟨f, hfm, rfl, ?_⟩
  unfold GLPI.search_engine
  simp [pySubscript, hcl, pyIter, heq]

/-- An engine criteria dictionary whose single criterion uses the field
`color`, absent from `field_map`. -/
def critBadField : PyVal :=
  .dict [("criteria", .list
    [.dict [("field", .str "color"), ("value", .str "x"),
            ("searchtype", .str "contains"), ("link", .str "AND")]])]

/-- Witness for C5: the `color` criterion fails with `KeyError` and no
session or HTTP activity. -/
theorem claim_C5_witness :
    ∃ f, dictContains field_map f = false ∧
      isLookupError (.keyError f) = true ∧
      GLPI.search_engine envInitOk gFresh "ticket" critBadField =
        (.error (.keyError f), gFresh, []) := by
  have h := claim_C5_search_engine_unmapped envInitOk gFresh "ticket"
    [("criteria", .list [.dict [("field", .str "color"), ("value", .str "x"),
      ("searchtype", .str "contains"), ("link", .str "AND")]])]
    [.dict [("field", .str "color"), ("value", .str "x"),
      ("searchtype", .str "contains"), ("link", .str "AND")]]
    rfl ?hwf ?hbad
  · exact h
  case hwf =>
    intro c hc
    simp only [List.mem_singleton] at hc
    subst hc
    exact ⟨_, rfl, ⟨"color", rfl⟩, rfl, rfl, rfl⟩
  case hbad =>
    exact ⟨.dict [("field", .str "color"), ("value", .str "x"),
        ("searchtype", .str "contains"), ("link", .str "AND")], by simp,
      [("field", .str "color"), ("value", .str "x"),
        ("searchtype", .str "contains"), ("link", .str "AND")], "color", rfl, rfl, rfl⟩

/-! ## Claim C7 -/

/-- A two-criterion `searchText` argument for router `get_all`. -/
def searchTextTwo : PyVal :=
  .dict [("criteria", .list
    [.dict [("field", .str "name"), ("value", .str "aa")],
     .dict [("field", .str "otherserial"), ("value", .str "bb")]])]

/-- C7: with no criteria, `get_all` issues its GET with `?range=0-5000`;
with two criteria, however, the issued query string is
`?searchText[name]=aasearchText[otherserial]=bb` — the `&` separator is
computed into the dead variable `uri` and never appended, so the claimed
`&`-separated form is not what goes on the wire. -/
theorem claim_C7_query_strings :
    (GLPI.get_all envInitOk gLive "ticket" false Option.none).2.2 =
      [{ method := "GET",
         url := "http://glpi.example.com/apirest.php/Ticket?range=0-5000",
         params := [], body := Option.none }] ∧
    (GLPI.get_all envInitOk gLive "ticket" false (Option.some searchTextTwo)).2.2 =
      [{ method := "GET",
         url := "http://glpi.example.com/apirest.php/Ticket?searchText[name]=aasearchText[otherserial]=bb",
         params := [], body := Option.none }] ∧
    ("?searchText[name]=aasearchText[otherserial]=bb" : String) ≠
      "?searchText[name]=aa&searchText[otherserial]=bb" := by
  refine ⟨rfl, rfl, by decide⟩

/-! ## Claim C1 -/

/-- A router constructed without an application token: beneath every
operation, `init_api` raises `GlpiException` when it constructs the
service object. -/
def gNoApp : GLPI :=
  GLPI.init "http://glpi.example.com/apirest.php" Option.none
    (Option.some "auth-token-1") Option.none false

/-- C1: when a `GlpiException` is raised beneath a router operation, the
`except` handler returns `{'{}'.format(e)}` — a one-element Python set
holding the message, not a `{"message_error": ...}` map; here shown for
`create` with a failing session layer: the result is the set and equals
no dict value whatsoever. -/
theorem claim_C1_handler_returns_set :
    GLPI.create envInitOk gNoApp "ticket" (Option.some [("name", .str "x")]) =
      (.ok (.set [.str "You must specify GLPI API-Token(app_token) to make API calls"]),
       gNoApp, []) ∧
    ∀ kvs, (.set [.str "You must specify GLPI API-Token(app_token) to make API calls"]
        : PyVal) ≠ .dict kvs := by
  refine ⟨rfl, ?_⟩
  intro kvs h
  exact PyVal.noConfusion h

/-! ## Claim C4 -/

/-- A `{"field": f, "value": v}` criterion dictionary, the shape the
claim's criteria lists carry. -/
def mkCriterion (f v : String) : PyVal :=
  .dict [("field", .str f), ("value", .str v)]

/-- The claim's per-record predicate: the criterion's value is a
case-insensitive substring of the record's field named by the
criterion. -/
def criterionHolds (d : PyVal) (c : String × String) : Bool :=
  match pySubscript d (.str c.1) with
  | .ok (.str fs) => strIn (pyLower c.2) (pyLower fs)
  | _ => false

/-- `critStep` on a well-shaped criterion evaluates the substring test. -/
theorem critStep_mkCriterion (d : PyVal) (f v fs : String)
    (hd : pySubscript d (.str f) = .ok (.str fs)) :
    critStep d (mkCriterion f v) = .ok (strIn (pyLower v) (pyLower fs)) := by
  have h1 : pySubscript (mkCriterion f v) (.str "value") = .ok (.str v) := by
    simp [mkCriterion, pySubscript, dictLookup]
  have h2 : pySubscript (mkCriterion f v) (.str "field") = .ok (.str f) := by
    simp [mkCriterion, pySubscript, dictLookup]
  simp [critStep, h1, h2, hd, pyLowerV]

/-- The `find` flag after the inner loop of `search_criteria` is the
disjunction of the per-criterion checks. -/
theorem findLoop_mkCriteria (d : PyVal) (cs : List (String × String))
    (h : ∀ c ∈ cs, ∃ fs, pySubscript d (.str c.1) = .ok (.str fs)) :
    ∀ b, findLoop d (cs.map (fun c => mkCriterion c.1 c.2)) b =
      .ok (b || cs.any (fun c => criterionHolds d c)) := by
  induction cs with
  | nil => intro b; simp [findLoop]
  | cons c rest ih =>
    intro b
    rcases h c (by simp) with ⟨fs, hfs⟩
    have hrest : ∀ c ∈ rest, ∃ fs, pySubscript d (.str c.1) = .ok (.str fs) :=
      fun c hc => h c (List.mem_cons_of_mem _ hc)
    have hch : criterionHolds d c = strIn (pyLower c.2) (pyLower fs) := by
      unfold criterionHolds; rw [hfs]
    simp only [List.map_cons, findLoop, critStep_mkCriterion d c.1 c.2 fs hfs]
    rw [ih hrest]
    simp [hch, Bool.or_assoc]

/-- The outer loop of `search_criteria` is a filter by the claim's
predicate, provided all named fields exist as strings. -/
theorem scanData_filter (cs : List (String × String)) (data : List PyVal)
    (h : ∀ d ∈ data, ∀ c ∈ cs, ∃ fs, pySubscript d (.str c.1) = .ok (.str fs)) :
    scanData (.list (cs.map (fun c => mkCriterion c.1 c.2))) data =
      .ok (data.filter (fun d => cs.any (fun c => criterionHolds d c))) := by
  induction data with
  | nil => simp [scanData]
  | cons d ds ih =>
    have hd : ∀ c ∈ cs, ∃ fs, pySubscript d (.str c.1) = .ok (.str fs) :=
      fun c hc => h d (by simp) c hc
    have hds : ∀ d' ∈ ds, ∀ c ∈ cs, ∃ fs, pySubscript d' (.str c.1) = .ok (.str fs) :=
      fun d' hd' c hc => h d' (List.mem_cons_of_mem _ hd') c hc
    simp only [scanData, pyIter]
    rw [findLoop_mkCriteria d cs hd false]
    by_cases hmatch : cs.any (fun c => criterionHolds d c) = true
    · simp [hmatch, ih hds, List.filter_cons]
    · have hmatch' : cs.any (fun c => criterionHolds d c) = false := by
        simpa using hmatch
      simp [hmatch', ih hds, List.filter_cons]

/-- C4: with a live session, router `search` with a `criteria` key
fetches the whole dataset and returns exactly the records for which at
least one criterion's value is a case-insensitive substring of the
record's field named by the criterion. -/
theorem claim_C4_search_filters (env : Env) (g : GLPI) (svc : GlpiService)
    (t sess : PyVal) (name : String) (cs : List (String × String))
    (data : List PyVal) (expand : Bool)
    (hs : g.api_session = Option.some t)
    (hr : g.api_rest = Option.some svc)
    (hss : svc.session = Option.some sess)
    (henv : ∀ r, env r =
      { status := 200, json := Option.some (.list data), content := "" })
    (hwf : ∀ d ∈ data, ∀ c ∈ cs, ∃ fs, pySubscript d (.str c.1) = .ok (.str fs)) :
    ∃ g' req, GLPI.search env g name
        (.dict [("criteria", .list (cs.map (fun c => mkCriterion c.1 c.2)))]) expand =
      (.ok (.list (data.filter (fun d => cs.any (fun c => criterionHolds d c)))),
       g', [req]) := by
  have hga_def : GLPI.get_all env g name expand Option.none =
      catchGlpi (routedCore env g name
        (fun s => GlpiService.get_all env s expand "?range=0-5000")) := rfl
  rcases routedCore_with_session env g svc name t
      (fun s => GlpiService.get_all env s expand "?range=0-5000") hs hr with ⟨u, m', hcore⟩
  have hact : GlpiService.get_all env (GlpiService.set_uri svc (Option.some u))
      expand "?range=0-5000" =
      (.ok (.list data), GlpiService.set_uri svc (Option.some u),
       [{ method := "GET",
          url := svc.url ++ "/" ++ pyStrip (u ++ "?range=0-5000") '/',
          params := if expand then [("expand_dropdowns", "true")] else [],
          body := Option.none }]) := by
    unfold GlpiService.get_all GlpiService.request
    simp [GlpiService.set_uri, hss, henv, respJson]
  have hga : GLPI.get_all env g name expand Option.none =
      (.ok (.list data),
       { g with
         item_map := m'
         item_uri := Option.some u
         api_rest := Option.some (GlpiService.set_uri svc (Option.some u)) },
       [{ method := "GET",
          url := svc.url ++ "/" ++ pyStrip (u ++ "?range=0-5000") '/',
          params := if expand then [("expand_dropdowns", "true")] else [],
          body := Option.none }]) := by
    rw [hga_def, hcore]
    simp only [hact]
    rfl
  have hin : pyInStr "criteria" (.dict [("criteria",
      .list (cs.map (fun c => mkCriterion c.1 c.2)))]) = .ok true := by
    simp [pyInStr, dictContains]
  have hsub : pySubscript (.dict [("criteria",
      .list (cs.map (fun c => mkCriterion c.1 c.2)))]) (.str "criteria") =
      .ok (.list (cs.map (fun c => mkCriterion c.1 c.2))) := by
    simp [pySubscript, dictLookup]
  have hsc : GLPI.search_criteria (.list data)
      (.list (cs.map (fun c => mkCriterion c.1 c.2))) =
      .ok (.list (data.filter (fun d => cs.any (fun c => criterionHolds d c)))) := by
    unfold GLPI.search_criteria
    simp [pyIter, scanData_filter cs data hwf]
  refine ⟨{ g with
      item_map := m'
      item_uri := Option.some u
      api_rest := Option.some (GlpiService.set_uri svc (Option.some u)) },
    { method := "GET",
      url := svc.url ++ "/" ++ pyStrip (u ++ "?range=0-5000") '/',
      params := if expand then [("expand_dropdowns", "true")] else [],
      body := Option.none }, ?_⟩
  simp only [GLPI.search, hin, hga, hsub, hsc]

/-- A record whose name contains `server` (mixed case). -/
def rec1 : PyVal := .dict [("id", .int 1), ("name", .str "WebSERVER01")]

/-- A record whose name does not contain `server`. -/
def rec2 : PyVal := .dict [("id", .int 2), ("name", .str "printer")]

/-- An environment whose server answers every request with the
two-record dataset. -/
def envData : Env := fun _ =>
  { status := 200, json := Option.some (.list [rec1, rec2]), content := "" }

/-- Witness for C4: filtering on `name` containing `"server"` keeps
exactly the record whose name is `WebSERVER01`. -/
theorem claim_C4_witness :
    ∃ g' req, GLPI.search envData gLive "ticket"
        (.dict [("criteria", .list [mkCriterion "name" "server"])]) false =
      (.ok (.list [rec1]), g', [req]) := by
  have hwf : ∀ d ∈ [rec1, rec2], ∀ c ∈ [("name", "server")],
      ∃ fs, pySubscript d (.str c.1) = .ok (.str fs) := by
    intro d hd c hc
    simp only [List.mem_singleton] at hc
    subst hc
    rcases List.mem_cons.1 hd with rfl | hd2
    · exact ⟨"WebSERVER01", rfl⟩
    · rcases List.mem_singleton.1 hd2 with rfl
      exact ⟨"printer", rfl⟩
  have h := claim_C4_search_filters envData gLive svcLive (.str "sess42")
    (.str "sess42") "ticket" [("name", "server")] [rec1, rec2] false
    rfl rfl rfl (fun r => rfl) hwf
  have hfil : ([rec1, rec2].filter
      (fun d => [("name", "server")].any (fun c => criterionHolds d c))) = [rec1] := rfl
  rw [hfil] at h
  simpa using h
